import Mathlib

/-!
Verification of the feature-normalization and similarity-scoring engine of the
song-trend-analysis dashboard (its track-predictor page), shallowly embedded in
Lean 4.  Feature vectors are association lists from feature names to rational
values; the Euclidean distance is a real number (square root of a rational sum
of squares).  The data-loading pipeline is embedded over an abstract list of
rows; a pandas NaN (mean over an empty cohort, min/max or quantile of an empty
column) is represented by `none`.
-/

namespace TrackPredictor

/-- A feature vector / profile: a finite map from feature name to raw value,
as an association list (a pandas `Series`).  An empty list stands for the empty
`Series` produced by the error paths of the data loader. -/
abbrev Profile := List (String × ℚ)

/-- Normalization parameters: feature name ↦ (min, max), as in the dictionary
`normalization_params` built by `load_and_analyze_raw_data`. -/
abbrev NormParams := List (String × ℚ × ℚ)

/-- `profile.get(f, 0)`: the pandas `Series.get` with default `0`, as used for
every profile access in `create_radar_figure` and `calculate_prediction_score`. -/
def getVal (p : Profile) (f : String) : ℚ :=
  (p.lookup f).getD 0

/-- `normalize_feature(feature_name, value, norm_params)` from
`src/pages/12_track_predictor.py` (lines 63–81): min–max rescaling into [0,1]
with clipping, `0.5` for a degenerate (non-positive-width) range, and raw
pass-through when the feature has no configured range. -/
def normalize_feature (feature_name : String) (value : ℚ) (norm_params : NormParams) : ℚ :=
  match norm_params.lookup feature_name with
  | some (min_val, max_val) =>
      let data_range := max_val - min_val
      if 0 < data_range then
        let normalized_value := (value - min_val) / data_range
        min 1 (max 0 normalized_value)
      else
        1/2
  | none => value

/-- Squared Euclidean distance between two coordinate lists (pointwise over the
common length, as `np.linalg.norm(u - v) ** 2` for equal-length vectors). -/
def distSq : List ℚ → List ℚ → ℚ
  | x :: xs, y :: ys => (x - y) ^ 2 + distSq xs ys
  | _, _ => 0

/-- Euclidean distance: `np.linalg.norm(u - v)`. -/
noncomputable def dist (xs ys : List ℚ) : ℝ :=
  Real.sqrt ((distSq xs ys : ℚ) : ℝ)

/-- The normalized coordinate vector of a profile over a feature list:
`np.array([normalize_feature(f, profile.get(f, 0), norm_params) for f in features])`. -/
def normProfile (p : Profile) (fs : List String) (np : NormParams) : List ℚ :=
  fs.map (fun f => normalize_feature f (getVal p f) np)

open Classical in
/-- `calculate_prediction_score(user_profile, avg_top_profile, avg_bottom_profile,
features, norm_params)` from `src/pages/12_track_predictor.py` (lines 138–173).
Returns `(prediction_score, dist_to_top, dist_to_bottom)`; `(0, 0, 0)` when either
reference profile is empty, `50` for the score when both distances vanish. -/
noncomputable def calculate_prediction_score
    (user_profile avg_top_profile avg_bottom_profile : Profile)
    (features : List String) (norm_params : NormParams) : ℝ × ℝ × ℝ :=
  if avg_top_profile = [] ∨ avg_bottom_profile = [] then (0, 0, 0)
  else
    let user_norm := normProfile user_profile features norm_params
    let top_norm := normProfile avg_top_profile features norm_params
    let bottom_norm := normProfile avg_bottom_profile features norm_params
    let dist_to_top := dist user_norm top_norm
    let dist_to_bottom := dist user_norm bottom_norm
    let prediction_score : ℝ :=
      if dist_to_top + dist_to_bottom = 0 then 50
      else (dist_to_bottom / (dist_to_top + dist_to_bottom)) * 100
    (prediction_score, dist_to_top, dist_to_bottom)

/-! ### Data loading and reference-profile derivation
(`load_and_analyze_raw_data`, `src/pages/12_track_predictor.py` lines 9–56).
The CSV parsing, year extraction and the try/except around file and column
access are outside the embedding; the computational pipeline — modern-era
filter, percentile thresholds, cohort selection, column means rounded to three
decimals, and dynamic min/max normalization ranges — is embedded over a list of
rows.  A pandas NaN (statistic of an empty column) is `none`. -/

/-- One row of the raw dataset: the extracted release year, the Popularity
column, and the audio-feature columns (total: every row supplies every
column, as in a DataFrame). -/
structure Row where
  year : ℤ
  popularity : ℚ
  feats : String → ℚ

/-- The features analyzed by the predictor page (line 38 of the source). -/
def features : List String :=
  ["Danceability", "Energy", "Valence", "Acousticness", "Liveness",
   "Speechiness", "Instrumentalness", "Loudness", "Tempo"]

/-- Insert a value into an ascending list (helper for sorting). -/
def insertAsc (x : ℚ) : List ℚ → List ℚ
  | [] => [x]
  | y :: ys => if x ≤ y then x :: y :: ys else y :: insertAsc x ys

/-- Ascending insertion sort, the order used by the quantile computation. -/
def sortAsc (xs : List ℚ) : List ℚ :=
  xs.foldr insertAsc []

/-- `Series.quantile(q)` with pandas' default linear interpolation between
order statistics: for sorted values `s₀ ≤ … ≤ sₙ₋₁` and position
`h = (n-1)·q`, the result is `s⌊h⌋ + (h - ⌊h⌋)·(s⌊h⌋₊₁ - s⌊h⌋)`.
The quantile of an empty column is NaN (`none`). -/
def quantile (xs : List ℚ) (q : ℚ) : Option ℚ :=
  match sortAsc xs with
  | [] => none
  | s =>
      let n := s.length
      let h : ℚ := ((n : ℚ) - 1) * q
      let lo : ℕ := (⌊h⌋).toNat
      let frac : ℚ := h - (lo : ℚ)
      let xlo := s.getD lo 0
      let xhi := s.getD (lo + 1) xlo
      some (xlo + frac * (xhi - xlo))

/-- Column mean; the mean of an empty column is NaN (`none`). -/
def mean (xs : List ℚ) : Option ℚ :=
  if xs = [] then none else some (xs.sum / (xs.length : ℚ))

/-- Column minimum; NaN (`none`) on an empty column. -/
def colMin : List ℚ → Option ℚ
  | [] => none
  | x :: xs => some (xs.foldl min x)

/-- Column maximum; NaN (`none`) on an empty column. -/
def colMax : List ℚ → Option ℚ
  | [] => none
  | x :: xs => some (xs.foldl max x)

/-- Round-half-to-even to the nearest integer (numpy/pandas `round`). -/
def rint (x : ℚ) : ℤ :=
  let f := ⌊x⌋
  let r := x - (f : ℚ)
  if r < 1/2 then f
  else if 1/2 < r then f + 1
  else if f % 2 = 0 then f else f + 1

/-- `Series.round(3)`: round to three decimal places, halves to even. -/
def round3 (x : ℚ) : ℚ :=
  ((rint (x * 1000) : ℤ) : ℚ) / 1000

/-- The modern-era filter: `df_modern = df_full[df_full.Year >= 2010]` (line 26). -/
def modernOf (rows : List Row) : List Row :=
  rows.filter (fun r => 2010 ≤ r.year)

/-- The top cohort: `df_top = df_modern[df_modern.Popularity >= p95]` with
`p95 = df_modern.Popularity.quantile(0.95)` (lines 31, 34).  When `p95` is NaN
(empty modern subset) the comparison is everywhere false and the cohort is empty. -/
def topCohort (rows : List Row) : List Row :=
  match quantile ((modernOf rows).map (fun r => r.popularity)) (95/100) with
  | none => []
  | some t => (modernOf rows).filter (fun r => t ≤ r.popularity)

/-- The bottom cohort: `df_bottom = df_modern[df_modern.Popularity <= p05]`
(lines 30, 35), with the same NaN convention. -/
def bottomCohort (rows : List Row) : List Row :=
  match quantile ((modernOf rows).map (fun r => r.popularity)) (5/100) with
  | none => []
  | some t => (modernOf rows).filter (fun r => r.popularity ≤ t)

/-- A derived reference profile: feature name ↦ column mean, where the mean is
NaN (`none`) when the cohort is empty. -/
abbrev DerivedProfile := List (String × Option ℚ)

/-- The computational core of `load_and_analyze_raw_data` (lines 26–49): from
the (already year-extracted) rows, keep the modern era, take the 5th/95th
Popularity percentiles, build the two cohorts, and return
`(avg_top, avg_bottom, features, normalization_params)` where the averages are
per-feature cohort means rounded to three decimals and the normalization
ranges are the modern subset's min/max per feature. -/
def load_and_analyze_raw_data (rows : List Row) :
    DerivedProfile × DerivedProfile × List String × List (String × Option (ℚ × ℚ)) :=
  let modern := modernOf rows
  let df_top := topCohort rows
  let df_bottom := bottomCohort rows
  let normalization_params := features.map (fun f =>
    (f, match colMin (modern.map (fun r => r.feats f)),
          colMax (modern.map (fun r => r.feats f)) with
        | some lo, some hi => some (lo, hi)
        | _, _ => none))
  let avg_top := features.map (fun f =>
    (f, (mean (df_top.map (fun r => r.feats f))).map round3))
  let avg_bottom := features.map (fun f =>
    (f, (mean (df_bottom.map (fun r => r.feats f))).map round3))
  (avg_top, avg_bottom, features, normalization_params)

/-- Modelled from the spec: the repository has no Mode A (single-reference)
scorer under `src/` — the predictor page only implements the dual-reference
`calculate_prediction_score`.  This follows §4.3 Mode A word for word:
`score = 100 * (1 - distance(candidate_norm, reference_norm) / max_distance)`
with `max_distance = sqrt(number_of_features)`, the result clamped to [0,100]. -/
noncomputable def mode_a_score (candidate_norm reference_norm : List ℚ) : ℝ :=
  let max_distance : ℝ := Real.sqrt (candidate_norm.length : ℝ)
  min 100 (max 0 (100 * (1 - dist candidate_norm reference_norm / max_distance)))

/-! ### Helper lemmas -/

/-- When a feature has a configured range of positive width, `normalize_feature`
is the clamped affine rescaling, for every input value. -/
lemma normalize_feature_of_lookup {f : String} {mn mx : ℚ} {np : NormParams}
    (hlook : np.lookup f = some (mn, mx)) (hlt : mn < mx) (v : ℚ) :
    normalize_feature f v np = min 1 (max 0 ((v - mn) / (mx - mn))) := by
  have hr : 0 < mx - mn := sub_pos.mpr hlt
  simp only [normalize_feature, hlook]
  rw [if_pos hr]

lemma distSq_nonneg (xs ys : List ℚ) : 0 ≤ distSq xs ys := by
  induction xs generalizing ys with
  | nil => cases ys <;> simp [distSq]
  | cons x xs ih =>
      cases ys with
      | nil => simp [distSq]
      | cons y ys => exact add_nonneg (sq_nonneg _) (ih ys)

lemma distSq_self (xs : List ℚ) : distSq xs xs = 0 := by
  induction xs with
  | nil => simp [distSq]
  | cons x xs ih => simp [distSq, ih]

lemma dist_self_eq_zero (xs : List ℚ) : dist xs xs = 0 := by
  simp [dist, distSq_self]

lemma dist_nonneg (xs ys : List ℚ) : 0 ≤ dist xs ys :=
  Real.sqrt_nonneg _

/-- Looking up a key in an association list built by mapping over a key list. -/
lemma lookup_map_pair {β : Type} (g : String → β) (l : List String) (f : String)
    (hf : f ∈ l) :
    (l.map (fun x => (x, g x))).lookup f = some (g f) := by
  induction l with
  | nil => simp at hf
  | cons a l ih =>
      rcases List.mem_cons.mp hf with h | h
      · subst h
        simp [List.lookup]
      · by_cases hfa : f = a
        · subst hfa
          simp [List.lookup]
        · have hba : (f == a) = false := beq_false_of_ne hfa
          simp [List.lookup, hba, ih h]

/-! ### Claims about the Feature Normalizer -/

/-- C2: for a feature whose configured range has `max > min`,
`normalize_feature` is the affine rescaling clamped to the unit interval:
the result is always in `[0,1]`, the minimum maps to `0`, the maximum to `1`,
and values outside the range clamp to the respective endpoint. -/
theorem C2_normalize_clamped_affine (f : String) (v mn mx : ℚ) (np : NormParams)
    (hlook : np.lookup f = some (mn, mx)) (hlt : mn < mx) :
    normalize_feature f v np = min 1 (max 0 ((v - mn) / (mx - mn)))
    ∧ 0 ≤ normalize_feature f v np
    ∧ normalize_feature f v np ≤ 1
    ∧ normalize_feature f mn np = 0
    ∧ normalize_feature f mx np = 1
    ∧ (v < mn → normalize_feature f v np = 0)
    ∧ (mx < v → normalize_feature f v np = 1) := by
  have hr : 0 < mx - mn := sub_pos.mpr hlt
  have hnf := normalize_feature_of_lookup hlook hlt
  refine ⟨hnf v, ?_, ?_, ?_, ?_, ?_, ?_⟩
  · rw [hnf v]
    exact le_min zero_le_one (le_max_left 0 _)
  · rw [hnf v]
    exact min_le_left _ _
  · rw [hnf mn]
    norm_num
  · rw [hnf mx, div_self (ne_of_gt hr)]
    norm_num
  · intro hv
    have hneg : (v - mn) / (mx - mn) < 0 :=
      div_neg_of_neg_of_pos (sub_neg.mpr hv) hr
    rw [hnf v, max_eq_left hneg.le]
    norm_num
  · intro hv
    have hgt : 1 < (v - mn) / (mx - mn) := (one_lt_div hr).mpr (by linarith)
    rw [hnf v, max_eq_right (by linarith : (0:ℚ) ≤ (v - mn) / (mx - mn))]
    exact min_eq_left hgt.le

/-- Closed instance of C2 at the Tempo feature with range (60, 200) and raw
value 130. -/
theorem C2_normalize_clamped_affine_witness :
    normalize_feature "Tempo" 130 [("Tempo", (60, 200))]
        = min 1 (max 0 ((130 - 60) / (200 - 60)))
    ∧ 0 ≤ normalize_feature "Tempo" 130 [("Tempo", (60, 200))]
    ∧ normalize_feature "Tempo" 130 [("Tempo", (60, 200))] ≤ 1
    ∧ normalize_feature "Tempo" 60 [("Tempo", (60, 200))] = 0
    ∧ normalize_feature "Tempo" 200 [("Tempo", (60, 200))] = 1
    ∧ ((130:ℚ) < 60 → normalize_feature "Tempo" 130 [("Tempo", (60, 200))] = 0)
    ∧ ((200:ℚ) < 130 → normalize_feature "Tempo" 130 [("Tempo", (60, 200))] = 1) :=
  C2_normalize_clamped_affine "Tempo" 130 60 200 [("Tempo", (60, 200))] rfl (by norm_num)

/-- C5: for a feature whose configured range is degenerate (`max == min`),
`normalize_feature` returns exactly `0.5` whatever the input value; no division
by zero occurs. -/
theorem C5_normalize_degenerate_range (f : String) (v mn : ℚ) (np : NormParams)
    (hlook : np.lookup f = some (mn, mn)) :
    normalize_feature f v np = 1/2 := by
  simp only [normalize_feature, hlook]
  rw [if_neg (by simp)]

/-- Closed instance of C5: a constant Liveness column (range (3,3)) sends the
raw value 7 to 0.5. -/
theorem C5_normalize_degenerate_range_witness :
    normalize_feature "Liveness" 7 [("Liveness", (3, 3))] = 1/2 :=
  C5_normalize_degenerate_range "Liveness" 7 3 [("Liveness", (3, 3))] rfl

/-- C7: a feature key absent from the normalization ranges mapping passes its
raw value through unchanged. -/
theorem C7_normalize_missing_feature (f : String) (v : ℚ) (np : NormParams)
    (hlook : np.lookup f = none) :
    normalize_feature f v np = v := by
  simp only [normalize_feature, hlook]

/-- Closed instance of C7: with no configured ranges at all, the raw value is
returned unchanged. -/
theorem C7_normalize_missing_feature_witness :
    normalize_feature "Danceability" (7/10) [] = 7/10 :=
  C7_normalize_missing_feature "Danceability" (7/10) [] rfl

/-- C9: for a feature with a positive-width range, `normalize_feature` is
monotone non-decreasing in the raw value. -/
theorem C9_normalize_monotone (f : String) (a b mn mx : ℚ) (np : NormParams)
    (hlook : np.lookup f = some (mn, mx)) (hlt : mn < mx) (hab : a ≤ b) :
    normalize_feature f a np ≤ normalize_feature f b np := by
  have hr : 0 < mx - mn := sub_pos.mpr hlt
  rw [normalize_feature_of_lookup hlook hlt a, normalize_feature_of_lookup hlook hlt b]
  refine min_le_min le_rfl (max_le_max le_rfl ?_)
  exact (div_le_div_iff_of_pos_right hr).mpr (by linarith)

/-- Closed instance of C9 at the Loudness feature with range (-60, 0) and raw
values -20 ≤ -5. -/
theorem C9_normalize_monotone_witness :
    normalize_feature "Loudness" (-20) [("Loudness", (-60, 0))]
      ≤ normalize_feature "Loudness" (-5) [("Loudness", (-60, 0))] :=
  C9_normalize_monotone "Loudness" (-20) (-5) (-60) 0 [("Loudness", (-60, 0))]
    rfl (by norm_num) (by norm_num)

/-! ### Claims about the Mode B (dual-reference) scorer -/

open Classical in
/-- With both reference profiles non-empty, the returned score is the branch on
the sum of the two Euclidean distances. -/
lemma score_of_ne (user hit flop : Profile) (fs : List String) (np : NormParams)
    (htop : hit ≠ []) (hbot : flop ≠ []) :
    (calculate_prediction_score user hit flop fs np).1
      = if dist (normProfile user fs np) (normProfile hit fs np)
            + dist (normProfile user fs np) (normProfile flop fs np) = 0 then (50:ℝ)
        else dist (normProfile user fs np) (normProfile flop fs np)
            / (dist (normProfile user fs np) (normProfile hit fs np)
               + dist (normProfile user fs np) (normProfile flop fs np)) * 100 := by
  have hcond : ¬(hit = [] ∨ flop = []) := by
    intro h
    rcases h with h | h
    · exact htop h
    · exact hbot h
  simp only [calculate_prediction_score, if_neg hcond]

/-- C1: for non-empty reference profiles whose normalized distances to the
candidate are not both zero, the Mode B score is
`100 * dist_to_flop / (dist_to_hit + dist_to_flop)`; in particular a candidate
normalized-identical to the hit profile scores 100 (the remaining distance to
the flop profile being forced non-zero), one normalized-identical to the flop
profile scores 0, and one equidistant from both scores 50. -/
theorem C1_mode_b_relative_score (user hit flop : Profile) (fs : List String)
    (np : NormParams) (htop : hit ≠ []) (hbot : flop ≠ [])
    (hnz : ¬(dist (normProfile user fs np) (normProfile hit fs np) = 0
        ∧ dist (normProfile user fs np) (normProfile flop fs np) = 0)) :
    (calculate_prediction_score user hit flop fs np).1
      = 100 * dist (normProfile user fs np) (normProfile flop fs np)
          / (dist (normProfile user fs np) (normProfile hit fs np)
             + dist (normProfile user fs np) (normProfile flop fs np))
    ∧ (normProfile user fs np = normProfile hit fs np →
        (calculate_prediction_score user hit flop fs np).1 = 100)
    ∧ (normProfile user fs np = normProfile flop fs np →
        (calculate_prediction_score user hit flop fs np).1 = 0)
    ∧ (dist (normProfile user fs np) (normProfile hit fs np)
          = dist (normProfile user fs np) (normProfile flop fs np) →
        (calculate_prediction_score user hit flop fs np).1 = 50) := by
  have h0t : 0 ≤ dist (normProfile user fs np) (normProfile hit fs np) :=
    dist_nonneg _ _
  have h0b : 0 ≤ dist (normProfile user fs np) (normProfile flop fs np) :=
    dist_nonneg _ _
  have hsum : dist (normProfile user fs np) (normProfile hit fs np)
      + dist (normProfile user fs np) (normProfile flop fs np) ≠ 0 := by
    intro h
    exact hnz ⟨by linarith, by linarith⟩
  have hmain : (calculate_prediction_score user hit flop fs np).1
      = dist (normProfile user fs np) (normProfile flop fs np)
          / (dist (normProfile user fs np) (normProfile hit fs np)
             + dist (normProfile user fs np) (normProfile flop fs np)) * 100 := by
    rw [score_of_ne user hit flop fs np htop hbot, if_neg hsum]
  refine ⟨?_, ?_, ?_, ?_⟩
  · rw [hmain]
    ring
  · intro h
    have ht0 : dist (normProfile user fs np) (normProfile hit fs np) = 0 := by
      rw [h, dist_self_eq_zero]
    have hb0 : dist (normProfile user fs np) (normProfile flop fs np) ≠ 0 := by
      intro hb
      exact hsum (by rw [ht0, hb, add_zero])
    rw [hmain, ht0, zero_add, div_self hb0, one_mul]
  · intro h
    have hb0 : dist (normProfile user fs np) (normProfile flop fs np) = 0 := by
      rw [h, dist_self_eq_zero]
    rw [hmain, hb0, zero_div, zero_mul]
  · intro h
    have hb0 : dist (normProfile user fs np) (normProfile flop fs np) ≠ 0 := by
      intro hb
      exact hsum (by rw [h, hb]; norm_num)
    have h2 : dist (normProfile user fs np) (normProfile flop fs np)
        + dist (normProfile user fs np) (normProfile flop fs np) ≠ 0 := by
      intro hc
      exact hb0 (by linarith)
    rw [hmain, h, div_mul_eq_mul_div, div_eq_iff h2]
    ring

/-- Closed instance of C1: a one-feature candidate that coincides with the hit
profile and differs from the flop profile scores exactly 100. -/
theorem C1_mode_b_relative_score_witness :
    (calculate_prediction_score [("Danceability", 1)] [("Danceability", 1)]
        [("Danceability", 0)] ["Danceability"] [("Danceability", (0, 1))]).1 = 100 := by
  have hu : normProfile [("Danceability", (1:ℚ))] ["Danceability"]
      [("Danceability", ((0:ℚ), (1:ℚ)))] = [1] := by
    norm_num [normProfile, normalize_feature, getVal]
  have hb : normProfile [("Danceability", (0:ℚ))] ["Danceability"]
      [("Danceability", ((0:ℚ), (1:ℚ)))] = [0] := by
    norm_num [normProfile, normalize_feature, getVal]
  have hdb : dist [(1:ℚ)] [0] = 1 := by
    have hsq : distSq [(1:ℚ)] [0] = 1 := by norm_num [distSq]
    rw [dist, hsq]
    push_cast
    exact Real.sqrt_one
  have h := C1_mode_b_relative_score [("Danceability", 1)] [("Danceability", 1)]
      [("Danceability", 0)] ["Danceability"] [("Danceability", (0, 1))]
      (by simp) (by simp)
      (by
        rw [hu, hb, hdb]
        rintro ⟨-, h2⟩
        exact one_ne_zero h2)
  exact h.2.1 (by rw [hu])

/-- C6: when the candidate and both (non-empty) reference profiles are
normalized-identical, both distances vanish and the scorer returns the neutral
50 rather than dividing by zero. -/
theorem C6_mode_b_degenerate (user hit flop : Profile) (fs : List String)
    (np : NormParams) (htop : hit ≠ []) (hbot : flop ≠ [])
    (h1 : normProfile user fs np = normProfile hit fs np)
    (h2 : normProfile user fs np = normProfile flop fs np) :
    (calculate_prediction_score user hit flop fs np).1 = 50 := by
  have ht0 : dist (normProfile user fs np) (normProfile hit fs np) = 0 := by
    rw [h1, dist_self_eq_zero]
  have hb0 : dist (normProfile user fs np) (normProfile flop fs np) = 0 := by
    rw [h2, dist_self_eq_zero]
  rw [score_of_ne user hit flop fs np htop hbot,
    if_pos (by rw [ht0, hb0, add_zero])]

/-- Closed instance of C6: three identical one-feature profiles score 50. -/
theorem C6_mode_b_degenerate_witness :
    (calculate_prediction_score [("Energy", 1/2)] [("Energy", 1/2)] [("Energy", 1/2)]
        ["Energy"] [("Energy", (0, 1))]).1 = 50 :=
  C6_mode_b_degenerate [("Energy", 1/2)] [("Energy", 1/2)] [("Energy", 1/2)]
    ["Energy"] [("Energy", (0, 1))] (by simp) (by simp) rfl rfl

/-- C10: if either reference profile is empty (the loader's failure value), the
scorer returns the whole triple `(0, 0, 0)` without computing any distance. -/
theorem C10_empty_profile_guard (user hit flop : Profile) (fs : List String)
    (np : NormParams) (h : hit = [] ∨ flop = []) :
    calculate_prediction_score user hit flop fs np = (0, 0, 0) := by
  simp only [calculate_prediction_score, if_pos h]

/-- Closed instance of C10 with an empty hit profile. -/
theorem C10_empty_profile_guard_witness :
    calculate_prediction_score [("Energy", 1)] [] [("Energy", 0)]
      ["Energy"] [("Energy", (0, 1))] = (0, 0, 0) :=
  C10_empty_profile_guard [("Energy", 1)] [] [("Energy", 0)]
    ["Energy"] [("Energy", (0, 1))] (Or.inl rfl)

/-! ### Claim about the Mode A (single-reference) scorer, modelled from the spec -/

lemma distSq_replicate (n : ℕ) :
    distSq (List.replicate n 0) (List.replicate n 1) = (n : ℚ) := by
  induction n with
  | zero => simp [distSq]
  | succ k ih =>
      rw [List.replicate_succ, List.replicate_succ]
      simp only [distSq, ih]
      push_cast
      ring

/-- C3: the Mode A score is `100 * (1 - d / sqrt n)` clamped to `[0, 100]`; a
candidate identical to the reference scores 100, the opposite corner of the
unit hypercube scores 0, and the one-feature scenario (candidate 0.5 against a
reference mean of 0.5333) scores 96.67, i.e. about 96.7. -/
theorem C3_mode_a_similarity (c r : List ℚ) :
    mode_a_score c r
      = min 100 (max 0 (100 * (1 - dist c r / Real.sqrt ((c.length : ℝ)))))
    ∧ (c = r → mode_a_score c r = 100)
    ∧ (∀ n : ℕ, 0 < n →
        mode_a_score (List.replicate n 0) (List.replicate n 1) = 0)
    ∧ mode_a_score [1/2] [5333/10000] = 9667/100 := by
  refine ⟨rfl, ?_, ?_, ?_⟩
  · intro h
    subst h
    simp [mode_a_score, dist_self_eq_zero]
  · intro n hn
    have hd : dist (List.replicate n (0:ℚ)) (List.replicate n 1) = Real.sqrt (n : ℝ) := by
      rw [dist, distSq_replicate]
      norm_cast
    have hpos : Real.sqrt (n : ℝ) ≠ 0 :=
      ne_of_gt (Real.sqrt_pos.mpr (by exact_mod_cast hn))
    simp only [mode_a_score, hd, List.length_replicate]
    rw [div_self hpos]
    norm_num
  · have hsq : distSq [(1:ℚ)/2] [5333/10000] = (333/10000)^2 := by
      norm_num [distSq]
    have hd : dist [(1:ℚ)/2] [5333/10000] = 333/10000 := by
      rw [dist, hsq]
      push_cast
      rw [Real.sqrt_sq (by norm_num)]
    simp only [mode_a_score, hd, List.length_cons, List.length_nil]
    norm_num

/-- Closed instance of C3: identical vectors score 100; the opposite corners of
the unit square (two features) score 0. -/
theorem C3_mode_a_similarity_witness :
    mode_a_score [1/2] [1/2] = 100
    ∧ mode_a_score (List.replicate 2 0) (List.replicate 2 1) = 0 :=
  ⟨(C3_mode_a_similarity [1/2] [1/2]).2.1 rfl,
   (C3_mode_a_similarity (List.replicate 2 0) (List.replicate 2 1)).2.2.1 2 (by norm_num)⟩

/-! ### Claims about reference-profile derivation -/

/-- C4 (amended): when the threshold filter yields an empty cohort,
`load_and_analyze_raw_data` reports no error at all: it silently returns a
profile whose every feature mean is NaN (`none`).  (The NaN values do differ
from an all-zero profile, but no "empty cohort" error exists in the code; only
the file-missing and column-missing exceptions are caught, and those yield
empty profiles.) -/
theorem C4_empty_cohort_silently_nan (rows : List Row) :
    (topCohort rows = [] →
      (load_and_analyze_raw_data rows).1
        = features.map (fun f => (f, (none : Option ℚ))))
    ∧ (bottomCohort rows = [] →
      (load_and_analyze_raw_data rows).2.1
        = features.map (fun f => (f, (none : Option ℚ)))) := by
  constructor
  · intro ht
    simp [load_and_analyze_raw_data, ht, mean]
  · intro hb
    simp [load_and_analyze_raw_data, hb, mean]

/-- Counterexample to C4 as stated: a dataset whose only row predates 2010
produces an empty cohort, yet the derivation returns an ordinary, fully-shaped
result tuple — NaN-valued profiles and NaN normalization ranges — with no
"empty cohort" error anywhere (the function has no error outcome for this
case). -/
theorem C4_counterexample :
    topCohort [⟨2005, 50, fun _ => 1⟩] = []
    ∧ load_and_analyze_raw_data [⟨2005, 50, fun _ => 1⟩]
        = (features.map (fun f => (f, none)), features.map (fun f => (f, none)),
           features, features.map (fun f => (f, none))) := by
  constructor
  · simp [topCohort, modernOf, quantile, sortAsc, List.filter]
  · norm_num [load_and_analyze_raw_data, topCohort, bottomCohort, modernOf, quantile,
      sortAsc, mean, colMin, colMax, List.filter]

/-- Closed instance of the amended C4 at the empty dataset. -/
theorem C4_empty_cohort_silently_nan_witness :
    (load_and_analyze_raw_data ([] : List Row)).1
        = features.map (fun f => (f, (none : Option ℚ)))
    ∧ (load_and_analyze_raw_data ([] : List Row)).2.1
        = features.map (fun f => (f, (none : Option ℚ))) :=
  ⟨(C4_empty_cohort_silently_nan []).1 rfl, (C4_empty_cohort_silently_nan []).2 rfl⟩

/-- C8 (amended): for a non-empty cohort, the derived reference profile is the
column-wise arithmetic mean of each feature across the filtered rows, rounded
to three decimal places (`.mean().round(3)`), not the exact mean. -/
theorem C8_profile_is_rounded_mean (rows : List Row) (f : String) (hf : f ∈ features) :
    (topCohort rows ≠ [] →
      (load_and_analyze_raw_data rows).1.lookup f
        = some (some (round3 ((((topCohort rows).map (fun r => r.feats f)).sum)
            / ((topCohort rows).length : ℚ)))))
    ∧ (bottomCohort rows ≠ [] →
      (load_and_analyze_raw_data rows).2.1.lookup f
        = some (some (round3 ((((bottomCohort rows).map (fun r => r.feats f)).sum)
            / ((bottomCohort rows).length : ℚ))))) := by
  constructor
  · intro hne
    have hmap : (topCohort rows).map (fun r => r.feats f) ≠ [] := by
      simpa using hne
    have h1 : (load_and_analyze_raw_data rows).1
        = features.map (fun x =>
            (x, (mean ((topCohort rows).map (fun r => r.feats x))).map round3)) := rfl
    rw [h1, lookup_map_pair
      (fun x => (mean ((topCohort rows).map (fun r => r.feats x))).map round3)
      features f hf]
    rw [mean, if_neg hmap]
    simp
  · intro hne
    have hmap : (bottomCohort rows).map (fun r => r.feats f) ≠ [] := by
      simpa using hne
    have h1 : (load_and_analyze_raw_data rows).2.1
        = features.map (fun x =>
            (x, (mean ((bottomCohort rows).map (fun r => r.feats x))).map round3)) := rfl
    rw [h1, lookup_map_pair
      (fun x => (mean ((bottomCohort rows).map (fun r => r.feats x))).map round3)
      features f hf]
    rw [mean, if_neg hmap]
    simp

/-- Counterexample to C8 as stated: a single modern row with Danceability 1/3
forms its own cohort; the exact column mean is 1/3, but the derived profile
stores the rounded value 0.333 ≠ 1/3. -/
theorem C8_counterexample :
    ((topCohort [⟨2020, 50, fun _ => 1/3⟩]).map (fun r => r.feats "Danceability")) = [1/3]
    ∧ mean [1/3] = some (1/3)
    ∧ (load_and_analyze_raw_data [⟨2020, 50, fun _ => 1/3⟩]).1.lookup "Danceability"
        = some (some (333/1000))
    ∧ (333/1000 : ℚ) ≠ 1/3 := by
  refine ⟨?_, ?_, ?_, by norm_num⟩
  · norm_num [topCohort, modernOf, quantile, sortAsc, insertAsc, List.filter]
  · norm_num [mean]
  · norm_num [load_and_analyze_raw_data, topCohort, bottomCohort, modernOf, quantile,
      sortAsc, insertAsc, mean, round3, rint, features, List.filter, List.lookup]

/-- Closed instance of the amended C8: a one-row modern cohort with Energy 1/2
derives the rounded mean of its Energy column. -/
theorem C8_profile_is_rounded_mean_witness :
    (load_and_analyze_raw_data [⟨2015, 10, fun _ => 1/2⟩]).1.lookup "Energy"
      = some (some (round3 ((((topCohort [⟨2015, 10, fun _ => 1/2⟩]).map
          (fun r => r.feats "Energy")).sum)
          / ((topCohort [⟨2015, 10, fun _ => 1/2⟩]).length : ℚ)))) := by
  have hne : topCohort [(⟨2015, 10, fun _ => 1/2⟩ : Row)] ≠ [] := by
    norm_num [topCohort, modernOf, quantile, sortAsc, insertAsc, List.filter]
  exact (C8_profile_is_rounded_mean [⟨2015, 10, fun _ => 1/2⟩] "Energy" (by decide)).1 hne

end TrackPredictor
